import Mathlib

/-!
Shallow embedding of the `rohans540/books-backend` Go service.

The repository contains two variants of the book controller:
* `src/controllers/bookController.go` — embedded below in namespace `BookController`:
  unpaginated list cached under the fixed key "books", update binds the request
  JSON into a separate `updatedBook` payload and copies the three data fields,
  delete is `Unscoped` (physical).
* `src/unnamed/part_000` — embedded in namespace `Part000`: paginated list cached
  under "books:limit=<l>:offset=<o>", update binds the request JSON directly onto
  the loaded record, delete is `DB.Delete` (also physical, since `models.Book`
  has no `gorm.DeletedAt` field).

Modelling conventions:
* `models.Book` (src/models/book.go): `ID uint` is a `Nat`, `Year int` an `Int`.
* The Redis cache is an association list of entries (key, value, ttl); `ttl = 0`
  means "no expiration" as in `redis.Set(ctx, key, data, 0)`.  Cached values are
  the marshalled data itself (`CacheVal`), since `json.Marshal` is injective and
  the only writers are the handlers.
* The GORM store is the list of rows in insertion order; `First(&book, id)` is a
  primary-key lookup, `Create` assigns the next auto-increment id when `ID = 0`,
  `Save` updates the row whose primary key equals the saved record's `ID`,
  `Delete`/`Unscoped().Delete` removes the row.
* Kafka `PublishMessage(topic, msg)` appends `(topic, msg)` to an event log.
* A request body is either malformed JSON or a `BookJSON` object of per-field optional values;
  `encoding/json` leaves struct fields that are absent from the body unchanged,
  which `bindJSON` reproduces (binding into a fresh `var book models.Book`
  starts from `zeroBook`).
* `DB.Find` can fail; `bookController.go`'s list checks `result.Error` (500 on
  failure) while `part_000`'s list ignores it.  Both `GetBooks` embeddings take
  a `dbErr : Bool` flag injecting that failure; on failure the destination slice
  keeps its zero value (empty list).
-/

structure Book where
  id : Nat
  title : String
  author : String
  year : Int
deriving Repr, DecidableEq

/-- The zero value of `models.Book`, the state of `var book models.Book`. -/
def zeroBook : Book := ⟨0, "", "", 0⟩

/-- A value stored in Redis: the marshalled form of a book list or of a book. -/
inductive CacheVal where
  | books (bs : List Book)
  | book (b : Book)
deriving Repr, DecidableEq

structure CacheEntry where
  key : String
  val : CacheVal
  ttl : Nat
deriving Repr, DecidableEq

abbrev Cache := List CacheEntry

/-- Models `redis.RedisClient.Get(ctx, k)`: the entry for `k`, if present. -/
def cacheGet (c : Cache) (k : String) : Option CacheVal :=
  (c.find? (fun e => e.key == k)).map (fun e => e.val)

/-- Models `redis.RedisClient.Set(ctx, k, v, ttl)`: overwrite the entry for `k`. -/
def cacheSet (c : Cache) (k : String) (v : CacheVal) (ttl : Nat) : Cache :=
  ⟨k, v, ttl⟩ :: c.filter (fun e => e.key != k)

/-- Models `redis.RedisClient.Del(ctx, ks...)`: drop every entry whose key is in `ks`. -/
def cacheDel (c : Cache) (ks : List String) : Cache :=
  c.filter (fun e => !(ks.contains e.key))

/-- Models `json.Unmarshal(cached, &books)` for a `[]models.Book` destination: on a
mismatched payload the error is ignored and the slice keeps its zero value. -/
def unmarshalBooks : CacheVal → List Book
  | .books bs => bs
  | .book _ => []

/-- Models `json.Unmarshal(cached, &book)` for a `models.Book` destination: on a
mismatched payload the error is ignored and the struct keeps its zero value. -/
def unmarshalBook : CacheVal → Book
  | .book b => b
  | .books _ => zeroBook

/-- A well-formed JSON request body for a book: each field may be absent. -/
structure BookJSON where
  id : Option Nat
  title : Option String
  author : Option String
  year : Option Int
deriving Repr, DecidableEq

/-- Models `ShouldBindJSON(&b)`: fields present in the body overwrite `b`'s fields,
absent fields keep `b`'s current values (semantics of `encoding/json`). -/
def bindJSON (p : BookJSON) (b : Book) : Book :=
  { id := p.id.getD b.id
    title := p.title.getD b.title
    author := p.author.getD b.author
    year := p.year.getD b.year }

/-- A request body: malformed JSON, or a book-shaped JSON object. -/
inductive Body where
  | malformed
  | json (p : BookJSON)
deriving Repr, DecidableEq

/-- The full mutable state visible to the handlers: the store rows (in id
order), the auto-increment counter, the Redis cache, and the Kafka log. -/
structure AppState where
  store : List Book
  nextId : Nat
  cache : Cache
  events : List (String × String)
deriving Repr, DecidableEq

/-- Models `database.DB.First(&book, id)`: primary-key lookup. -/
def dbFirst (st : List Book) (id : Nat) : Option Book :=
  st.find? (fun b => b.id == id)

/-- Models `database.DB.Limit(l).Offset(o).Find(&books)`. -/
def dbFindPage (st : List Book) (limit offset : Nat) : List Book :=
  (st.drop offset).take limit

/-- Models `database.DB.Create(&book)`: when `ID` is zero the store assigns the next
auto-increment id; a client-supplied id colliding with an existing row is a
duplicate-key store error. -/
def dbCreate (s : AppState) (b : Book) : Except Unit (AppState × Book) :=
  if b.id == 0 then
    let b' := { b with id := s.nextId }
    .ok ({ s with store := s.store ++ [b'], nextId := s.nextId + 1 }, b')
  else if s.store.any (fun x => x.id == b.id) then
    .error ()
  else
    .ok ({ s with store := s.store ++ [b], nextId := max s.nextId (b.id + 1) }, b)

/-- Models `database.DB.Save(&book)`: GORM runs an update keyed on the primary
key, and falls back to `Create` when the update matches no row — in particular
when the primary key is blank (zero), where the store assigns the next
auto-increment id, and for a fresh non-zero key, which is inserted as given.
(A blank primary key that nonetheless matches a stored row cannot arise
through GORM, whose auto-increment starts at 1; the model resolves that
unreachable corner in favour of the update.)  Returns the new state together
with the record as GORM leaves it in the Go variable: `Save` fills in the id
it assigns on the blank-key create. -/
def dbSave (s : AppState) (b : Book) : AppState × Book :=
  if s.store.any (fun x => x.id == b.id) then
    ({ s with store := s.store.map (fun x => if x.id == b.id then b else x) }, b)
  else if b.id == 0 then
    let b' := { b with id := s.nextId }
    ({ s with store := s.store ++ [b'], nextId := s.nextId + 1 }, b')
  else
    ({ s with store := s.store ++ [b], nextId := max s.nextId (b.id + 1) }, b)

/-- Physical delete of `b`'s row. -/
def dbDelete (st : List Book) (b : Book) : List Book :=
  st.filter (fun x => x.id != b.id)

/-- Digit run to a number; fails on a non-digit. -/
def digitsVal? (cs : List Char) : Option Nat :=
  cs.foldl
    (fun acc c =>
      match acc with
      | none => none
      | some n => if c.isDigit then some (n * 10 + (c.toNat - 48)) else none)
    (some 0)

/-- Models `strconv.Atoi` before the range check: optional sign then digits. -/
def rawAtoi? (s : String) : Option Int :=
  match s.data with
  | [] => none
  | '+' :: rest =>
      if rest = [] then none else (digitsVal? rest).map Int.ofNat
  | '-' :: rest =>
      if rest = [] then none else (digitsVal? rest).map (fun n => -(n : Int))
  | cs => (digitsVal? cs).map Int.ofNat

/-- Models `strconv.Atoi`, which also errors when the value does not fit in a 64-bit int. -/
def atoi? (s : String) : Option Int :=
  (rawAtoi? s).bind
    (fun n => if -(2 ^ 63) ≤ n ∧ n ≤ 2 ^ 63 - 1 then some n else none)

/-- Models `limit, err := strconv.Atoi(ctx.DefaultQuery("limit", "10"));
if err != nil || limit <= 0 [ limit = 10 ]` (part_000 lines 28-31). -/
def parseLimit (q : Option String) : Int :=
  match atoi? (q.getD "10") with
  | none => 10
  | some n => if n ≤ 0 then 10 else n

/-- Models `offset, err := strconv.Atoi(ctx.DefaultQuery("offset", "0"));
if err != nil || offset < 0 [ offset = 0 ]` (part_000 lines 33-36). -/
def parseOffset (q : Option String) : Int :=
  match atoi? (q.getD "0") with
  | none => 0
  | some n => if n < 0 then 0 else n

/-- An HTTP response: constructor selects status and JSON body shape.
`badRequest`, `notFound` and `internalError` render `gin.H` as the structured
error body with a single "error" field carrying the message. -/
inductive Resp where
  | okBooks (bs : List Book)
  | okBook (b : Book)
  | okMessage (message : String)
  | createdBook (b : Book)
  | badRequest (error : String)
  | notFound (error : String)
  | internalError (error : String)
deriving Repr, DecidableEq

def Resp.status : Resp → Nat
  | okBooks _ => 200
  | okBook _ => 200
  | okMessage _ => 200
  | createdBook _ => 201
  | badRequest _ => 400
  | notFound _ => 404
  | internalError _ => 500

/-- The "error" field of the response body, when the body is the structured
error object; `none` for success bodies. -/
def Resp.errorField : Resp → Option String
  | badRequest e => some e
  | notFound e => some e
  | internalError e => some e
  | _ => none

namespace BookController

/-- Embeds `GetBooks` of src/controllers/bookController.go: cache hit on the fixed key
"books" (the hit test `err == nil && cachedBooks != ""` is key presence, since
every value the handlers store is non-empty marshalled JSON) returns the cached
payload verbatim; on miss, `DB.Find` — 500 if it errors — then cache under
"books" with no expiration and return 200. -/
def GetBooks (dbErr : Bool) (s : AppState) : Resp × AppState :=
  match cacheGet s.cache "books" with
  | some (.books bs) => (.okBooks bs, s)
  | some (.book b) => (.okBook b, s)
  | none =>
    if dbErr then (.internalError "Error fetching books", s)
    else
      let books := s.store
      (.okBooks books, { s with cache := cacheSet s.cache "books" (.books books) 0 })

/-- Embeds `GetBookByID` of src/controllers/bookController.go. -/
def GetBookByID (s : AppState) (id : Nat) : Resp × AppState :=
  match cacheGet s.cache ("book:" ++ toString id) with
  | some v => (.okBook (unmarshalBook v), s)
  | none =>
    match dbFirst s.store id with
    | none => (.notFound "Book not found", s)
    | some book =>
      (.okBook book,
        { s with cache := cacheSet s.cache ("book:" ++ toString id) (.book book) 0 })

/-- Embeds `CreateBook` of src/controllers/bookController.go. -/
def CreateBook (s : AppState) (body : Body) : Resp × AppState :=
  match body with
  | .malformed => (.badRequest "Invalid JSON data", s)
  | .json p =>
    let book := bindJSON p zeroBook
    if book.title = "" then (.badRequest "Title cannot be empty", s)
    else if book.author = "" then (.badRequest "Author cannot be empty", s)
    else if book.year ≤ 0 then
      (.badRequest "Year must be a valid positive number", s)
    else
      match dbCreate s book with
      | .error _ => (.internalError "Failed to create book", s)
      | .ok (s1, book') =>
        let s2 := { s1 with cache := cacheDel s1.cache ["books"] }
        let s3 := { s2 with
          events := s2.events ++ [("book_events", "New book added: " ++ book'.title)] }
        (.createdBook book', s3)

/-- Embeds `UpdateBook` of src/controllers/bookController.go: load by id (404 if
absent), bind the body into a separate `updatedBook` (400 if malformed),
validate `updatedBook`'s three fields, copy them onto the loaded record, save,
delete cache keys "books" and "book:<id>", publish, 200. -/
def UpdateBook (s : AppState) (id : Nat) (body : Body) : Resp × AppState :=
  match dbFirst s.store id with
  | none => (.notFound "Book not found", s)
  | some book =>
    match body with
    | .malformed => (.badRequest "Invalid JSON data", s)
    | .json p =>
      let updatedBook := bindJSON p zeroBook
      if updatedBook.title = "" then (.badRequest "Title cannot be empty", s)
      else if updatedBook.author = "" then (.badRequest "Author cannot be empty", s)
      else if updatedBook.year ≤ 0 then
        (.badRequest "Year must be a valid positive number", s)
      else
        let book' := { book with
          title := updatedBook.title
          author := updatedBook.author
          year := updatedBook.year }
        let saved := dbSave s book'
        let s1 := saved.1
        let s2 := { s1 with
          cache := cacheDel s1.cache ["books", "book:" ++ toString id] }
        let s3 := { s2 with
          events := s2.events ++ [("book_events", "Book updated: " ++ saved.2.title)] }
        (.okBook saved.2, s3)

/-- Embeds `DeleteBook` of src/controllers/bookController.go (`Unscoped().Delete`). -/
def DeleteBook (s : AppState) (id : Nat) : Resp × AppState :=
  match dbFirst s.store id with
  | none => (.notFound "Book not found", s)
  | some book =>
    let s1 := { s with store := dbDelete s.store book }
    let s2 := { s1 with
      cache := cacheDel s1.cache ["books", "book:" ++ toString id] }
    let s3 := { s2 with
      events := s2.events ++ [("book_events", "Book deleted: " ++ toString book.id)] }
    (.okMessage "Book deleted successfully", s3)

end BookController

namespace Part000

/-- Embeds `GetBooks` of src/unnamed/part_000: coerce `limit`/`offset`, look up the
pagination-specific cache key; on hit, unmarshal the cached payload and return
it; on miss, read the page (the `Find` error is ignored: on failure the slice
stays empty), cache it under the pagination key with no expiration, return 200
unconditionally. -/
def GetBooks (dbErr : Bool) (s : AppState) (limitQ offsetQ : Option String) :
    Resp × AppState :=
  let limit := parseLimit limitQ
  let offset := parseOffset offsetQ
  let cacheKey :=
    "books:limit=" ++ toString limit ++ ":offset=" ++ toString offset
  match cacheGet s.cache cacheKey with
  | some v => (.okBooks (unmarshalBooks v), s)
  | none =>
    let books :=
      if dbErr then [] else dbFindPage s.store limit.toNat offset.toNat
    (.okBooks books, { s with cache := cacheSet s.cache cacheKey (.books books) 0 })

/-- Embeds `GetBookByID` of src/unnamed/part_000 (same code as the other variant). -/
def GetBookByID (s : AppState) (id : Nat) : Resp × AppState :=
  match cacheGet s.cache ("book:" ++ toString id) with
  | some v => (.okBook (unmarshalBook v), s)
  | none =>
    match dbFirst s.store id with
    | none => (.notFound "Book not found", s)
    | some book =>
      (.okBook book,
        { s with cache := cacheSet s.cache ("book:" ++ toString id) (.book book) 0 })

/-- Embeds `CreateBook` of src/unnamed/part_000 (same code as the other variant):
note the cache invalidation deletes only the fixed key "books". -/
def CreateBook (s : AppState) (body : Body) : Resp × AppState :=
  match body with
  | .malformed => (.badRequest "Invalid JSON data", s)
  | .json p =>
    let book := bindJSON p zeroBook
    if book.title = "" then (.badRequest "Title cannot be empty", s)
    else if book.author = "" then (.badRequest "Author cannot be empty", s)
    else if book.year ≤ 0 then
      (.badRequest "Year must be a valid positive number", s)
    else
      match dbCreate s book with
      | .error _ => (.internalError "Failed to create book", s)
      | .ok (s1, book') =>
        let s2 := { s1 with cache := cacheDel s1.cache ["books"] }
        let s3 := { s2 with
          events := s2.events ++ [("book_events", "New book added: " ++ book'.title)] }
        (.createdBook book', s3)

/-- Embeds `UpdateBook` of src/unnamed/part_000: load by id (404 if absent), then
`ShouldBindJSON(&book)` binds the body DIRECTLY ONTO the loaded record —
including its `ID` field when the body supplies one — validate the merged
record, `Save` it by its (possibly client-supplied) primary key, delete cache
keys "books" and "book:<id>", publish, 200. -/
def UpdateBook (s : AppState) (id : Nat) (body : Body) : Resp × AppState :=
  match dbFirst s.store id with
  | none => (.notFound "Book not found", s)
  | some book0 =>
    match body with
    | .malformed => (.badRequest "Invalid JSON data", s)
    | .json p =>
      let book := bindJSON p book0
      if book.title = "" then (.badRequest "Title cannot be empty", s)
      else if book.author = "" then (.badRequest "Author cannot be empty", s)
      else if book.year ≤ 0 then
        (.badRequest "Year must be a valid positive number", s)
      else
        let saved := dbSave s book
        let s1 := saved.1
        let s2 := { s1 with
          cache := cacheDel s1.cache ["books", "book:" ++ toString id] }
        let s3 := { s2 with
          events := s2.events ++ [("book_events", "Book updated: " ++ saved.2.title)] }
        (.okBook saved.2, s3)

/-- Embeds `DeleteBook` of src/unnamed/part_000 (`DB.Delete`; physical, as
`models.Book` has no soft-delete column). -/
def DeleteBook (s : AppState) (id : Nat) : Resp × AppState :=
  match dbFirst s.store id with
  | none => (.notFound "Book not found", s)
  | some book =>
    let s1 := { s with store := dbDelete s.store book }
    let s2 := { s1 with
      cache := cacheDel s1.cache ["books", "book:" ++ toString id] }
    let s3 := { s2 with
      events := s2.events ++ [("book_events", "Book deleted: " ++ toString book.id)] }
    (.okMessage "Book deleted successfully", s3)

end Part000

/-- The Book data invariant of the spec: non-empty title and author, positive
year. -/
def validBook (b : Book) : Prop :=
  b.title ≠ "" ∧ b.author ≠ "" ∧ 0 < b.year

instance (b : Book) : Decidable (validBook b) := by
  unfold validBook; infer_instance

/-- Every persisted row satisfies the Book invariant. -/
def storeInv (st : List Book) : Prop := ∀ b ∈ st, validBook b

instance (st : List Book) : Decidable (storeInv st) := by
  unfold storeInv; infer_instance

/-! Claim theorems. -/

/-- Pre-existing row used in the C1 scenario. -/
def c1Old : Book := ⟨1, "Old Book", "Old Author", 2000⟩

/-- The book created in the C1 scenario ("Book A"). -/
def c1New : Book := ⟨2, "Dune", "Herbert", 1965⟩

/-- C1 scenario start state: one stored row, and the list page for the default
pagination parameters already cached (as a prior `GET /books` leaves it). -/
def c1State : AppState :=
  { store := [c1Old]
    nextId := 2
    cache := [⟨"books:limit=10:offset=0", .books [c1Old], 0⟩]
    events := [] }

/-- C1 create request body for "Book A". -/
def c1Body : Body := .json ⟨none, some "Dune", some "Herbert", some 1965⟩

/-- C1: in the `part_000` variant, `CreateBook` deletes only the fixed cache
key "books", while `GetBooks` caches list pages under
"books:limit=<l>:offset=<o>".  Concretely: with the default page cached,
creating Book A succeeds (201, row persisted), yet the next `GET /books`
serves the stale cached page, which does not include A — the claimed
cache-invalidation contract and its concrete list-after-create test fail. -/
theorem c1_stale_list_after_create :
    (Part000.CreateBook c1State c1Body).1 = .createdBook c1New ∧
    c1New ∈ (Part000.CreateBook c1State c1Body).2.store ∧
    (Part000.GetBooks false (Part000.CreateBook c1State c1Body).2 none none).1
      = .okBooks [c1Old] ∧
    c1New ∉ [c1Old] := by
  refine ⟨rfl, ?_, rfl, ?_⟩ <;> decide

/-- Common shape of `CreateBook` validation (identical in both variants),
specialized to bookController.go. -/
theorem bookController_create_invalid (s : AppState) (p : BookJSON)
    (h : (bindJSON p zeroBook).title = "" ∨ (bindJSON p zeroBook).author = ""
      ∨ (bindJSON p zeroBook).year ≤ 0) :
    (BookController.CreateBook s (.json p)).1.status = 400 ∧
    (BookController.CreateBook s (.json p)).2 = s := by
  unfold BookController.CreateBook
  by_cases ht : (bindJSON p zeroBook).title = ""
  · simp [ht, Resp.status]
  · by_cases ha : (bindJSON p zeroBook).author = ""
    · simp [ht, ha, Resp.status]
    · have hy : (bindJSON p zeroBook).year ≤ 0 := by tauto
      simp [ht, ha, hy, Resp.status]

/-- Same, for the part_000 variant. -/
theorem part000_create_invalid (s : AppState) (p : BookJSON)
    (h : (bindJSON p zeroBook).title = "" ∨ (bindJSON p zeroBook).author = ""
      ∨ (bindJSON p zeroBook).year ≤ 0) :
    (Part000.CreateBook s (.json p)).1.status = 400 ∧
    (Part000.CreateBook s (.json p)).2 = s := by
  unfold Part000.CreateBook
  by_cases ht : (bindJSON p zeroBook).title = ""
  · simp [ht, Resp.status]
  · by_cases ha : (bindJSON p zeroBook).author = ""
    · simp [ht, ha, Resp.status]
    · have hy : (bindJSON p zeroBook).year ≤ 0 := by tauto
      simp [ht, ha, hy, Resp.status]

/-- C3: a create request whose bound payload has an empty title, an empty
author, or a non-positive year gets a Bad-Request response and leaves the
whole state — store rows, cache entries, event log — unchanged, in both
controller variants. -/
theorem c3_create_invalid_state_unchanged (s : AppState) (p : BookJSON)
    (h : (bindJSON p zeroBook).title = "" ∨ (bindJSON p zeroBook).author = ""
      ∨ (bindJSON p zeroBook).year ≤ 0) :
    ((BookController.CreateBook s (.json p)).1.status = 400 ∧
      (BookController.CreateBook s (.json p)).2 = s) ∧
    ((Part000.CreateBook s (.json p)).1.status = 400 ∧
      (Part000.CreateBook s (.json p)).2 = s) :=
  ⟨bookController_create_invalid s p h, part000_create_invalid s p h⟩

/-- C3 witness: the concrete empty-title create request is rejected with 400
and leaves the concrete state untouched. -/
theorem c3_witness :
    ((bindJSON ⟨none, some "", some "Herbert", some 1965⟩ zeroBook).title = ""
      ∨ (bindJSON ⟨none, some "", some "Herbert", some 1965⟩ zeroBook).author = ""
      ∨ (bindJSON ⟨none, some "", some "Herbert", some 1965⟩ zeroBook).year ≤ 0) ∧
    (((BookController.CreateBook c1State
        (.json ⟨none, some "", some "Herbert", some 1965⟩)).1.status = 400 ∧
      (BookController.CreateBook c1State
        (.json ⟨none, some "", some "Herbert", some 1965⟩)).2 = c1State) ∧
     ((Part000.CreateBook c1State
        (.json ⟨none, some "", some "Herbert", some 1965⟩)).1.status = 400 ∧
      (Part000.CreateBook c1State
        (.json ⟨none, some "", some "Herbert", some 1965⟩)).2 = c1State)) :=
  ⟨Or.inl rfl,
    c3_create_invalid_state_unchanged c1State ⟨none, some "", some "Herbert", some 1965⟩
      (Or.inl rfl)⟩

/-- bookController.go create, first check: empty title. -/
theorem bc_create_title_br (s : AppState) (p : BookJSON)
    (ht : (bindJSON p zeroBook).title = "") :
    (BookController.CreateBook s (.json p)).1 = .badRequest "Title cannot be empty" := by
  unfold BookController.CreateBook; simp [ht]

/-- bookController.go create, second check: empty author (title non-empty). -/
theorem bc_create_author_br (s : AppState) (p : BookJSON)
    (ht : (bindJSON p zeroBook).title ≠ "") (ha : (bindJSON p zeroBook).author = "") :
    (BookController.CreateBook s (.json p)).1 = .badRequest "Author cannot be empty" := by
  unfold BookController.CreateBook; simp [ht, ha]

/-- bookController.go create, third check: non-positive year. -/
theorem bc_create_year_br (s : AppState) (p : BookJSON)
    (ht : (bindJSON p zeroBook).title ≠ "") (ha : (bindJSON p zeroBook).author ≠ "")
    (hy : (bindJSON p zeroBook).year ≤ 0) :
    (BookController.CreateBook s (.json p)).1
      = .badRequest "Year must be a valid positive number" := by
  unfold BookController.CreateBook; simp [ht, ha, hy]

/-- part_000 create, first check: empty title. -/
theorem p0_create_title_br (s : AppState) (p : BookJSON)
    (ht : (bindJSON p zeroBook).title = "") :
    (Part000.CreateBook s (.json p)).1 = .badRequest "Title cannot be empty" := by
  unfold Part000.CreateBook; simp [ht]

/-- part_000 create, second check: empty author (title non-empty). -/
theorem p0_create_author_br (s : AppState) (p : BookJSON)
    (ht : (bindJSON p zeroBook).title ≠ "") (ha : (bindJSON p zeroBook).author = "") :
    (Part000.CreateBook s (.json p)).1 = .badRequest "Author cannot be empty" := by
  unfold Part000.CreateBook; simp [ht, ha]

/-- part_000 create, third check: non-positive year. -/
theorem p0_create_year_br (s : AppState) (p : BookJSON)
    (ht : (bindJSON p zeroBook).title ≠ "") (ha : (bindJSON p zeroBook).author ≠ "")
    (hy : (bindJSON p zeroBook).year ≤ 0) :
    (Part000.CreateBook s (.json p)).1
      = .badRequest "Year must be a valid positive number" := by
  unfold Part000.CreateBook; simp [ht, ha, hy]

/-- bookController.go update validates the separately-bound payload with the
same three checks in the same order. -/
theorem bc_update_validation (s : AppState) (id : Nat) (book0 : Book) (p : BookJSON)
    (h0 : dbFirst s.store id = some book0) :
    ((bindJSON p zeroBook).title = "" →
      (BookController.UpdateBook s id (.json p)).1 = .badRequest "Title cannot be empty") ∧
    ((bindJSON p zeroBook).title ≠ "" → (bindJSON p zeroBook).author = "" →
      (BookController.UpdateBook s id (.json p)).1 = .badRequest "Author cannot be empty") ∧
    ((bindJSON p zeroBook).title ≠ "" → (bindJSON p zeroBook).author ≠ "" →
      (bindJSON p zeroBook).year ≤ 0 →
      (BookController.UpdateBook s id (.json p)).1
        = .badRequest "Year must be a valid positive number") := by
  unfold BookController.UpdateBook
  refine ⟨fun ht => ?_, fun ht ha => ?_, fun ht ha hy => ?_⟩ <;>
    simp_all

/-- part_000 update validates the merged record (body bound onto the loaded
row) with the same three checks in the same order. -/
theorem p0_update_validation (s : AppState) (id : Nat) (book0 : Book) (p : BookJSON)
    (h0 : dbFirst s.store id = some book0) :
    ((bindJSON p book0).title = "" →
      (Part000.UpdateBook s id (.json p)).1 = .badRequest "Title cannot be empty") ∧
    ((bindJSON p book0).title ≠ "" → (bindJSON p book0).author = "" →
      (Part000.UpdateBook s id (.json p)).1 = .badRequest "Author cannot be empty") ∧
    ((bindJSON p book0).title ≠ "" → (bindJSON p book0).author ≠ "" →
      (bindJSON p book0).year ≤ 0 →
      (Part000.UpdateBook s id (.json p)).1
        = .badRequest "Year must be a valid positive number") := by
  unfold Part000.UpdateBook
  refine ⟨fun ht => ?_, fun ht ha => ?_, fun ht ha hy => ?_⟩ <;>
    simp_all

/-- C2: on a body that deserializes, both create variants apply field
validation in the fixed order title, author, year, short-circuiting on the
first failing check with a Bad-Request whose message names the violated field,
and both update variants apply the same three checks in the same order (on the
separately-bound payload in bookController.go, on the merged record in
part_000). -/
theorem c2_validation_order (s : AppState) (id : Nat) (book0 : Book) (p : BookJSON) :
    (((bindJSON p zeroBook).title = "" →
        (BookController.CreateBook s (.json p)).1 = .badRequest "Title cannot be empty" ∧
        (Part000.CreateBook s (.json p)).1 = .badRequest "Title cannot be empty") ∧
     ((bindJSON p zeroBook).title ≠ "" → (bindJSON p zeroBook).author = "" →
        (BookController.CreateBook s (.json p)).1 = .badRequest "Author cannot be empty" ∧
        (Part000.CreateBook s (.json p)).1 = .badRequest "Author cannot be empty") ∧
     ((bindJSON p zeroBook).title ≠ "" → (bindJSON p zeroBook).author ≠ "" →
        (bindJSON p zeroBook).year ≤ 0 →
        (BookController.CreateBook s (.json p)).1
          = .badRequest "Year must be a valid positive number" ∧
        (Part000.CreateBook s (.json p)).1
          = .badRequest "Year must be a valid positive number")) ∧
    (dbFirst s.store id = some book0 →
      (((bindJSON p zeroBook).title = "" →
          (BookController.UpdateBook s id (.json p)).1
            = .badRequest "Title cannot be empty") ∧
       ((bindJSON p zeroBook).title ≠ "" → (bindJSON p zeroBook).author = "" →
          (BookController.UpdateBook s id (.json p)).1
            = .badRequest "Author cannot be empty") ∧
       ((bindJSON p zeroBook).title ≠ "" → (bindJSON p zeroBook).author ≠ "" →
          (bindJSON p zeroBook).year ≤ 0 →
          (BookController.UpdateBook s id (.json p)).1
            = .badRequest "Year must be a valid positive number")) ∧
      (((bindJSON p book0).title = "" →
          (Part000.UpdateBook s id (.json p)).1 = .badRequest "Title cannot be empty") ∧
       ((bindJSON p book0).title ≠ "" → (bindJSON p book0).author = "" →
          (Part000.UpdateBook s id (.json p)).1 = .badRequest "Author cannot be empty") ∧
       ((bindJSON p book0).title ≠ "" → (bindJSON p book0).author ≠ "" →
          (bindJSON p book0).year ≤ 0 →
          (Part000.UpdateBook s id (.json p)).1
            = .badRequest "Year must be a valid positive number"))) := by
  refine ⟨⟨fun ht => ⟨bc_create_title_br s p ht, p0_create_title_br s p ht⟩,
    fun ht ha => ⟨bc_create_author_br s p ht ha, p0_create_author_br s p ht ha⟩,
    fun ht ha hy => ⟨bc_create_year_br s p ht ha hy, p0_create_year_br s p ht ha hy⟩⟩,
    fun h0 => ⟨bc_update_validation s id book0 p h0, p0_update_validation s id book0 p h0⟩⟩

/-- C2 witness: a payload with an empty title and an empty author draws the
title message (first check wins) from both creates and both updates at a
concrete state; a payload with non-empty title/author and year 0 draws the
year message. -/
theorem c2_witness :
    ((bindJSON ⟨none, some "", some "", some 1965⟩ zeroBook).title = "" →
        (BookController.CreateBook c1State
          (.json ⟨none, some "", some "", some 1965⟩)).1
          = .badRequest "Title cannot be empty" ∧
        (Part000.CreateBook c1State
          (.json ⟨none, some "", some "", some 1965⟩)).1
          = .badRequest "Title cannot be empty") ∧
    (dbFirst c1State.store 1 = some c1Old) ∧
    ((bindJSON ⟨none, some "T", some "A", some 0⟩ c1Old).title ≠ "" →
      (bindJSON ⟨none, some "T", some "A", some 0⟩ c1Old).author ≠ "" →
      (bindJSON ⟨none, some "T", some "A", some 0⟩ c1Old).year ≤ 0 →
      (Part000.UpdateBook c1State 1 (.json ⟨none, some "T", some "A", some 0⟩)).1
        = .badRequest "Year must be a valid positive number") :=
  ⟨(c2_validation_order c1State 1 c1Old ⟨none, some "", some "", some 1965⟩).1.1,
   by decide,
   ((c2_validation_order c1State 1 c1Old ⟨none, some "T", some "A", some 0⟩).2
      (by decide)).2.2.2⟩

/-- Appending a valid row preserves the store invariant. -/
theorem storeInv_append (st : List Book) (b : Book)
    (hinv : storeInv st) (hv : validBook b) : storeInv (st ++ [b]) := by
  intro x hx
  rcases List.mem_append.1 hx with h | h
  · exact hinv x h
  · rw [List.mem_singleton.1 h]; exact hv

/-- Lemma: `dbCreate` only inserts the validated row (possibly with a fresh id). -/
theorem storeInv_dbCreate (s : AppState) (b : Book) (s1 : AppState) (b' : Book)
    (hinv : storeInv s.store) (hv : validBook b)
    (h : dbCreate s b = .ok (s1, b')) : storeInv s1.store := by
  unfold dbCreate at h
  split at h
  · rw [Except.ok.injEq, Prod.mk.injEq] at h
    rw [← h.1]
    exact storeInv_append s.store _ hinv hv
  · split at h
    · exact absurd h (by simp)
    · rw [Except.ok.injEq, Prod.mk.injEq] at h
      rw [← h.1]
      exact storeInv_append s.store _ hinv hv

/-- Lemma: `dbSave` writes only the validated record, whether it updates the
matching row or inserts it through either create fallback. -/
theorem storeInv_dbSave (s : AppState) (b : Book)
    (hinv : storeInv s.store) (hv : validBook b) : storeInv (dbSave s b).1.store := by
  unfold dbSave
  by_cases hex : (s.store.any (fun x => x.id == b.id)) = true
  · rw [if_pos hex]
    intro x hx
    rcases List.mem_map.1 hx with ⟨y, hy, hxy⟩
    by_cases h : (y.id == b.id) = true
    · rw [if_pos h] at hxy; rw [← hxy]; exact hv
    · rw [if_neg h] at hxy; rw [← hxy]; exact hinv y hy
  · rw [if_neg hex]
    by_cases h0 : (b.id == 0) = true
    · rw [if_pos h0]
      exact storeInv_append s.store _ hinv hv
    · rw [if_neg h0]
      exact storeInv_append s.store _ hinv hv

/-- bookController.go create preserves the store invariant. -/
theorem bc_create_storeInv (s : AppState) (body : Body) (hinv : storeInv s.store) :
    storeInv (BookController.CreateBook s body).2.store := by
  cases body with
  | malformed => exact hinv
  | json p =>
    unfold BookController.CreateBook
    by_cases ht : (bindJSON p zeroBook).title = ""
    · simpa [ht] using hinv
    by_cases ha : (bindJSON p zeroBook).author = ""
    · simpa [ht, ha] using hinv
    by_cases hy : (bindJSON p zeroBook).year ≤ 0
    · simpa [ht, ha, hy] using hinv
    have hv : validBook (bindJSON p zeroBook) := ⟨ht, ha, by omega⟩
    cases hE : dbCreate s (bindJSON p zeroBook) with
    | error e => simpa [ht, ha, hy, hE] using hinv
    | ok pr =>
      obtain ⟨s1, b'⟩ := pr
      simpa [ht, ha, hy, hE] using storeInv_dbCreate s _ s1 b' hinv hv hE

/-- part_000 create preserves the store invariant (same code). -/
theorem p0_create_storeInv (s : AppState) (body : Body) (hinv : storeInv s.store) :
    storeInv (Part000.CreateBook s body).2.store := by
  cases body with
  | malformed => exact hinv
  | json p =>
    unfold Part000.CreateBook
    by_cases ht : (bindJSON p zeroBook).title = ""
    · simpa [ht] using hinv
    by_cases ha : (bindJSON p zeroBook).author = ""
    · simpa [ht, ha] using hinv
    by_cases hy : (bindJSON p zeroBook).year ≤ 0
    · simpa [ht, ha, hy] using hinv
    have hv : validBook (bindJSON p zeroBook) := ⟨ht, ha, by omega⟩
    cases hE : dbCreate s (bindJSON p zeroBook) with
    | error e => simpa [ht, ha, hy, hE] using hinv
    | ok pr =>
      obtain ⟨s1, b'⟩ := pr
      simpa [ht, ha, hy, hE] using storeInv_dbCreate s _ s1 b' hinv hv hE

/-- bookController.go update preserves the store invariant: the copied-field
record passes the three checks before `Save`. -/
theorem bc_update_storeInv (s : AppState) (id : Nat) (body : Body)
    (hinv : storeInv s.store) :
    storeInv (BookController.UpdateBook s id body).2.store := by
  unfold BookController.UpdateBook
  cases h0 : dbFirst s.store id with
  | none => simpa [h0] using hinv
  | some book =>
    cases body with
    | malformed => simpa [h0] using hinv
    | json p =>
      by_cases ht : (bindJSON p zeroBook).title = ""
      · simpa [h0, ht] using hinv
      by_cases ha : (bindJSON p zeroBook).author = ""
      · simpa [h0, ht, ha] using hinv
      by_cases hy : (bindJSON p zeroBook).year ≤ 0
      · simpa [h0, ht, ha, hy] using hinv
      have hv : validBook { book with
          title := (bindJSON p zeroBook).title
          author := (bindJSON p zeroBook).author
          year := (bindJSON p zeroBook).year } :=
        ⟨ht, ha, by change (0 : Int) < (bindJSON p zeroBook).year; omega⟩
      simpa [h0, ht, ha, hy] using storeInv_dbSave s _ hinv hv

/-- part_000 update preserves the store invariant: the merged record passes
the three checks before `Save`. -/
theorem p0_update_storeInv (s : AppState) (id : Nat) (body : Body)
    (hinv : storeInv s.store) :
    storeInv (Part000.UpdateBook s id body).2.store := by
  unfold Part000.UpdateBook
  cases h0 : dbFirst s.store id with
  | none => simpa [h0] using hinv
  | some book0 =>
    cases body with
    | malformed => simpa [h0] using hinv
    | json p =>
      by_cases ht : (bindJSON p book0).title = ""
      · simpa [h0, ht] using hinv
      by_cases ha : (bindJSON p book0).author = ""
      · simpa [h0, ht, ha] using hinv
      by_cases hy : (bindJSON p book0).year ≤ 0
      · simpa [h0, ht, ha, hy] using hinv
      have hv : validBook (bindJSON p book0) := ⟨ht, ha, by omega⟩
      simpa [h0, ht, ha, hy] using storeInv_dbSave s _ hinv hv

/-- C4: every persisted Book has non-empty title, non-empty author and
positive year — the invariant holds of the store after create and after
update (the only field-writing operations), in both controller variants,
whenever it held before; from the empty store this is established by
create. -/
theorem c4_store_invariant (s : AppState) (id : Nat) (body : Body)
    (hinv : storeInv s.store) :
    storeInv (BookController.CreateBook s body).2.store ∧
    storeInv (Part000.CreateBook s body).2.store ∧
    storeInv (BookController.UpdateBook s id body).2.store ∧
    storeInv (Part000.UpdateBook s id body).2.store :=
  ⟨bc_create_storeInv s body hinv, p0_create_storeInv s body hinv,
   bc_update_storeInv s id body hinv, p0_update_storeInv s id body hinv⟩

/-- C4 witness: from the concrete state, a concrete create and update keep
every stored row valid. -/
theorem c4_witness :
    storeInv c1State.store ∧
    (storeInv
        (BookController.CreateBook c1State
          (.json ⟨none, some "Dune", some "Herbert", some 1965⟩)).2.store ∧
     storeInv
        (Part000.CreateBook c1State
          (.json ⟨none, some "Dune", some "Herbert", some 1965⟩)).2.store ∧
     storeInv
        (BookController.UpdateBook c1State 1
          (.json ⟨none, some "Dune", some "Herbert", some 1965⟩)).2.store ∧
     storeInv
        (Part000.UpdateBook c1State 1
          (.json ⟨none, some "Dune", some "Herbert", some 1965⟩)).2.store) :=
  ⟨by decide,
   c4_store_invariant c1State 1 (.json ⟨none, some "Dune", some "Herbert", some 1965⟩)
     (by decide)⟩

/-- C5 scenario: two stored rows, empty cache. -/
def c5State : AppState :=
  { store := [⟨1, "t1", "a1", 2001⟩, ⟨2, "t2", "a2", 2002⟩]
    nextId := 3
    cache := []
    events := [] }

/-- C5 body: an update payload that also supplies `"id": 2`. -/
def c5Body : Body := .json ⟨some 2, some "NT", some "NA", some 1999⟩

/-- C5 counterexample: in part_000's `UpdateBook`, `PUT /books/1` with a body
carrying `"id": 2` loads row 1, but `ShouldBindJSON(&book)` overwrites the
loaded record's id with the body's, so `Save` targets row 2: the returned
Book's id is 2, not the path-loaded 1, row 1 is untouched and row 2 is
overwritten — the body id is not ignored. -/
theorem c5_counterexample :
    dbFirst c5State.store 1 = some ⟨1, "t1", "a1", 2001⟩ ∧
    (Part000.UpdateBook c5State 1 c5Body).1 = .okBook ⟨2, "NT", "NA", 1999⟩ ∧
    (2 : Nat) ≠ 1 ∧
    (Part000.UpdateBook c5State 1 c5Body).2.store
      = [⟨1, "t1", "a1", 2001⟩, ⟨2, "NT", "NA", 1999⟩] := by
  refine ⟨rfl, rfl, ?_, rfl⟩; decide

/-- A successful primary-key lookup returns a stored row with the looked-up
id. -/
theorem dbFirst_mem (st : List Book) (id : Nat) (b : Book)
    (h : dbFirst st id = some b) : b ∈ st ∧ b.id = id := by
  unfold dbFirst at h
  exact ⟨List.mem_of_find?_eq_some h, by simpa using List.find?_some h⟩

/-- C5 amended: on a full, valid update body, the separate-payload variant
(bookController.go) persists and returns the Book under the loaded record's id
no matter what id the body carries (the loaded id always names a stored row,
so `Save` takes its update path).  The direct-bind variant (part_000) does not
ignore a body-supplied id: save-by-primary-key uses it — an id matching a
stored row rewrites that row; a fresh non-zero id inserts a new row under it;
id 0 triggers the store's blank-key create, inserting a new row under a fresh
auto-assigned id that is returned to the client — and only when the body omits
the id does the save land on the path-loaded record. -/
theorem c5_amended_update_id (s : AppState) (id : Nat) (book0 : Book)
    (pid : Option Nat) (t a : String) (y : Int)
    (h0 : dbFirst s.store id = some book0)
    (ht : t ≠ "") (ha : a ≠ "") (hy : 0 < y) :
    ((BookController.UpdateBook s id (.json ⟨pid, some t, some a, some y⟩)).1
        = .okBook ⟨book0.id, t, a, y⟩ ∧
     (BookController.UpdateBook s id (.json ⟨pid, some t, some a, some y⟩)).2.store
        = s.store.map (fun x => if x.id == book0.id then ⟨book0.id, t, a, y⟩ else x)) ∧
    (pid = none →
      (Part000.UpdateBook s id (.json ⟨pid, some t, some a, some y⟩)).1
        = .okBook ⟨book0.id, t, a, y⟩ ∧
      (Part000.UpdateBook s id (.json ⟨pid, some t, some a, some y⟩)).2.store
        = s.store.map (fun x => if x.id == book0.id then ⟨book0.id, t, a, y⟩ else x)) ∧
    (∀ j, pid = some j → s.store.any (fun x => x.id == j) = true →
      (Part000.UpdateBook s id (.json ⟨pid, some t, some a, some y⟩)).1
        = .okBook ⟨j, t, a, y⟩ ∧
      (Part000.UpdateBook s id (.json ⟨pid, some t, some a, some y⟩)).2.store
        = s.store.map (fun x => if x.id == j then ⟨j, t, a, y⟩ else x)) ∧
    (∀ j, pid = some j → j ≠ 0 → s.store.any (fun x => x.id == j) = false →
      (Part000.UpdateBook s id (.json ⟨pid, some t, some a, some y⟩)).1
        = .okBook ⟨j, t, a, y⟩ ∧
      (Part000.UpdateBook s id (.json ⟨pid, some t, some a, some y⟩)).2.store
        = s.store ++ [⟨j, t, a, y⟩]) ∧
    (pid = some 0 → s.store.any (fun x => x.id == 0) = false →
      (Part000.UpdateBook s id (.json ⟨pid, some t, some a, some y⟩)).1
        = .okBook ⟨s.nextId, t, a, y⟩ ∧
      (Part000.UpdateBook s id (.json ⟨pid, some t, some a, some y⟩)).2.store
        = s.store ++ [⟨s.nextId, t, a, y⟩]) := by
  have hy' : ¬(y ≤ (0 : Int)) := by omega
  have hexA : (s.store.any (fun x => x.id == book0.id)) = true :=
    List.any_eq_true.2 ⟨book0, (dbFirst_mem s.store id book0 h0).1, by simp⟩
  refine ⟨?_, fun hnone => ?_, fun j hj hex => ?_, fun j hj hjz hex => ?_,
    fun hz hex => ?_⟩
  · unfold BookController.UpdateBook
    constructor <;> simp [h0, bindJSON, ht, ha, hy', dbSave, hexA]
  · subst hnone
    unfold Part000.UpdateBook
    constructor <;> simp [h0, bindJSON, ht, ha, hy', dbSave, hexA]
  · subst hj
    unfold Part000.UpdateBook
    constructor <;> simp [h0, bindJSON, ht, ha, hy', dbSave, hex]
  · subst hj
    have hj0 : (j == 0) = false := by simpa using hjz
    unfold Part000.UpdateBook
    constructor <;> simp [h0, bindJSON, ht, ha, hy', dbSave, hex, hj0]
  · subst hz
    unfold Part000.UpdateBook
    constructor <;> simp [h0, bindJSON, ht, ha, hy', dbSave, hex]

/-- C5 witness: at the concrete two-row state (next auto-increment id 3),
`PUT /books/1` with body id 2 returns id 1 from the separate-payload variant
but rewrites and returns row 2 in the direct-bind variant, and the same
request with body id 0 makes the direct-bind variant insert a new row under
the fresh id 3 and return it. -/
theorem c5_witness :
    dbFirst c5State.store 1 = some ⟨1, "t1", "a1", 2001⟩ ∧
    "NT" ≠ "" ∧ "NA" ≠ "" ∧ (0 : Int) < 1999 ∧
    (BookController.UpdateBook c5State 1
        (.json ⟨some 2, some "NT", some "NA", some 1999⟩)).1
      = .okBook ⟨1, "NT", "NA", 1999⟩ ∧
    (Part000.UpdateBook c5State 1
        (.json ⟨some 2, some "NT", some "NA", some 1999⟩)).1
      = .okBook ⟨2, "NT", "NA", 1999⟩ ∧
    (Part000.UpdateBook c5State 1
        (.json ⟨some 0, some "NT", some "NA", some 1999⟩)).1
      = .okBook ⟨3, "NT", "NA", 1999⟩ ∧
    (Part000.UpdateBook c5State 1
        (.json ⟨some 0, some "NT", some "NA", some 1999⟩)).2.store
      = c5State.store ++ [⟨3, "NT", "NA", 1999⟩] := by
  have h2 := c5_amended_update_id c5State 1 ⟨1, "t1", "a1", 2001⟩ (some 2)
    "NT" "NA" 1999 rfl (by decide) (by decide) (by decide)
  have h0 := c5_amended_update_id c5State 1 ⟨1, "t1", "a1", 2001⟩ (some 0)
    "NT" "NA" 1999 rfl (by decide) (by decide) (by decide)
  exact ⟨rfl, by decide, by decide, by decide, h2.1.1,
    (h2.2.2.1 2 rfl (by rfl)).1,
    (h0.2.2.2.2 rfl (by rfl)).1,
    (h0.2.2.2.2 rfl (by rfl)).2⟩

/-- part_000's list depends on the query strings only through the two coerced
pagination values. -/
theorem p0_getBooks_congr (d : Bool) (s : AppState) (l1 l2 o1 o2 : Option String)
    (hl : parseLimit l1 = parseLimit l2) (ho : parseOffset o1 = parseOffset o2) :
    Part000.GetBooks d s l1 o1 = Part000.GetBooks d s l2 o2 := by
  unfold Part000.GetBooks; rw [hl, ho]

/-- An unparseable limit string coerces to 10. -/
theorem parseLimit_unparseable (l : String) (h : atoi? l = none) :
    parseLimit (some l) = 10 := by
  unfold parseLimit; simp [h]

/-- A non-positive parsed limit coerces to 10. -/
theorem parseLimit_nonpos (l : String) (n : Int) (h : atoi? l = some n)
    (hn : n ≤ 0) : parseLimit (some l) = 10 := by
  unfold parseLimit; simp [h, hn]

/-- An unparseable offset string coerces to 0. -/
theorem parseOffset_unparseable (o : String) (h : atoi? o = none) :
    parseOffset (some o) = 0 := by
  unfold parseOffset; simp [h]

/-- A negative parsed offset coerces to 0. -/
theorem parseOffset_neg (o : String) (n : Int) (h : atoi? o = some n)
    (hn : n < 0) : parseOffset (some o) = 0 := by
  unfold parseOffset; simp [h, hn]

/-- C6 scenario: eleven stored rows, empty cache. -/
def c6State : AppState :=
  { store := [⟨1, "b", "a", 1⟩, ⟨2, "b", "a", 1⟩, ⟨3, "b", "a", 1⟩,
              ⟨4, "b", "a", 1⟩, ⟨5, "b", "a", 1⟩, ⟨6, "b", "a", 1⟩,
              ⟨7, "b", "a", 1⟩, ⟨8, "b", "a", 1⟩, ⟨9, "b", "a", 1⟩,
              ⟨10, "b", "a", 1⟩, ⟨11, "b", "a", 1⟩]
    nextId := 12
    cache := []
    events := [] }

/-- C6 counterexample: bookController.go's `GetBooks` applies no pagination at
all — with eleven stored rows and the limit omitted it returns the full
collection of 11 books, not a 10-row page, so an omitted limit is not treated
as 10 in that variant; part_000 by contrast serves the 10-row default page. -/
theorem c6_counterexample :
    (BookController.GetBooks false c6State).1 = .okBooks c6State.store ∧
    c6State.store.length = 11 ∧
    ¬(c6State.store.length ≤ 10) ∧
    (Part000.GetBooks false c6State none none).1
      = .okBooks (c6State.store.take 10) ∧
    (c6State.store.take 10).length = 10 := by
  refine ⟨rfl, rfl, by decide, rfl, rfl⟩

/-- C6 amended: in the paginated list (part_000), an omitted, non-positive or
unparseable `limit` is treated as 10 and an omitted, negative or unparseable
`offset` as 0; consequently a request with `limit=-1` or an unparseable limit
behaves — response and state — exactly like one with `limit` omitted, and
likewise for `offset`.  The bookController.go variant reads no pagination
parameters: every list request there returns the full collection (on a cache
miss with the store readable), so limit values trivially behave alike but no
default of 10 is applied. -/
theorem c6_pagination_defaults :
    (parseLimit none = 10 ∧ parseLimit (some "-1") = 10 ∧
      (∀ l, atoi? l = none → parseLimit (some l) = 10) ∧
      (∀ l n, atoi? l = some n → n ≤ 0 → parseLimit (some l) = 10)) ∧
    (parseOffset none = 0 ∧ parseOffset (some "-1") = 0 ∧
      (∀ o, atoi? o = none → parseOffset (some o) = 0) ∧
      (∀ o n, atoi? o = some n → n < 0 → parseOffset (some o) = 0)) ∧
    (∀ d s oq, Part000.GetBooks d s (some "-1") oq = Part000.GetBooks d s none oq) ∧
    (∀ d s oq l, atoi? l = none →
      Part000.GetBooks d s (some l) oq = Part000.GetBooks d s none oq) ∧
    (∀ d s oq l n, atoi? l = some n → n ≤ 0 →
      Part000.GetBooks d s (some l) oq = Part000.GetBooks d s none oq) ∧
    (∀ d s lq, Part000.GetBooks d s lq (some "-1") = Part000.GetBooks d s lq none) ∧
    (∀ d s lq o, atoi? o = none →
      Part000.GetBooks d s lq (some o) = Part000.GetBooks d s lq none) ∧
    (∀ d s lq o n, atoi? o = some n → n < 0 →
      Part000.GetBooks d s lq (some o) = Part000.GetBooks d s lq none) ∧
    (∀ s, cacheGet s.cache "books" = none →
      (BookController.GetBooks false s).1 = .okBooks s.store) := by
  refine ⟨⟨rfl, by decide, parseLimit_unparseable, parseLimit_nonpos⟩,
    ⟨rfl, by decide, parseOffset_unparseable, parseOffset_neg⟩,
    fun d s oq => p0_getBooks_congr d s _ _ _ _ (by decide) rfl,
    fun d s oq l h => p0_getBooks_congr d s _ _ _ _ ?_ rfl,
    fun d s oq l n h hn => p0_getBooks_congr d s _ _ _ _ ?_ rfl,
    fun d s lq => p0_getBooks_congr d s _ _ _ _ rfl (by decide),
    fun d s lq o h => p0_getBooks_congr d s _ _ _ _ rfl ?_,
    fun d s lq o n h hn => p0_getBooks_congr d s _ _ _ _ rfl ?_,
    fun s h => ?_⟩
  · rw [parseLimit_unparseable l h]; decide
  · rw [parseLimit_nonpos l n h hn]; decide
  · rw [parseOffset_unparseable o h]; decide
  · rw [parseOffset_neg o n h hn]; decide
  · unfold BookController.GetBooks; simp [h]

/-- C6 witness: the non-numeric limit "abc" and the negative offset "-3"
behave like the omitted parameters on the concrete state, and on the concrete
uncached state the non-paginated variant returns the whole store. -/
theorem c6_witness :
    atoi? "abc" = none ∧ atoi? "-3" = some (-3) ∧ (-3 : Int) < 0 ∧
    Part000.GetBooks false c1State (some "abc") none
      = Part000.GetBooks false c1State none none ∧
    Part000.GetBooks false c1State none (some "-3")
      = Part000.GetBooks false c1State none none ∧
    cacheGet c5State.cache "books" = none ∧
    (BookController.GetBooks false c5State).1 = .okBooks c5State.store := by
  refine ⟨by decide, by decide, by decide, ?_, ?_, by rfl, ?_⟩
  · exact c6_pagination_defaults.2.2.2.1 false c1State none "abc" (by decide)
  · exact c6_pagination_defaults.2.2.2.2.2.2.2.1 false c1State none "-3" (-3)
      (by decide) (by decide)
  · exact c6_pagination_defaults.2.2.2.2.2.2.2.2 c5State (by rfl)

/-- C7 scenario: one row, empty cache, and the store read fails. -/
def c7State : AppState := { store := [c1Old], nextId := 2, cache := [], events := [] }

/-- C7 counterexample: in bookController.go's `GetBooks`, a cache miss followed
by a failing `DB.Find` returns 500 with the "Error fetching books" body — not
status 200 — so the list operation does have a failure code. -/
theorem c7_counterexample :
    (BookController.GetBooks true c7State).1 = .internalError "Error fetching books" ∧
    (BookController.GetBooks true c7State).1.status = 500 ∧
    (500 : Nat) ≠ 200 := by
  refine ⟨rfl, rfl, ?_⟩; decide

/-- C7 amended: part_000's list ignores the store result and answers 200 on
every request (even when the read fails, serving and caching an empty page);
bookController.go's list answers 200 whenever the store read succeeds or the
collection key is cached, but answers 500 when the cache misses and the store
read fails. -/
theorem c7_amended_list_status :
    (∀ d s lq oq, (Part000.GetBooks d s lq oq).1.status = 200) ∧
    (∀ s, (BookController.GetBooks false s).1.status = 200) ∧
    (∀ s v, cacheGet s.cache "books" = some v →
      (BookController.GetBooks true s).1.status = 200) ∧
    (∀ s, cacheGet s.cache "books" = none →
      (BookController.GetBooks true s).1.status = 500) := by
  refine ⟨fun d s lq oq => ?_, fun s => ?_, fun s v h => ?_, fun s h => ?_⟩
  · unfold Part000.GetBooks
    cases hc : cacheGet s.cache
        ("books:limit=" ++ toString (parseLimit lq) ++ ":offset="
          ++ toString (parseOffset oq)) with
    | none => simp [hc, Resp.status]
    | some v => simp [hc, Resp.status]
  · unfold BookController.GetBooks
    split <;> rfl
  · unfold BookController.GetBooks
    rcases v with bs | b <;> simp [h, Resp.status]
  · unfold BookController.GetBooks
    simp [h, Resp.status]

/-- C7 witness: with the collection key cached, even a failing store read
leaves the non-paginated list at 200; with it uncached, the failing read
produces the 500. -/
theorem c7_witness :
    cacheGet [(⟨"books", .books [c1Old], 0⟩ : CacheEntry)] "books"
      = some (.books [c1Old]) ∧
    (BookController.GetBooks true
        { store := [c1Old], nextId := 2
          cache := [⟨"books", .books [c1Old], 0⟩], events := [] }).1.status = 200 ∧
    cacheGet c7State.cache "books" = none ∧
    (BookController.GetBooks true c7State).1.status = 500 :=
  ⟨rfl,
   c7_amended_list_status.2.2.1
     { store := [c1Old], nextId := 2
       cache := [⟨"books", .books [c1Old], 0⟩], events := [] }
     (.books [c1Old]) rfl,
   rfl,
   c7_amended_list_status.2.2.2 c7State rfl⟩

/-- C8: on a `book:<id>` cache miss, both variants of get-by-id answer
Not-Found (404) with the structured `error`-field body when no store row
matches the id; when a row matches, it is returned with 200 after being
written to the cache under `book:<id>` with ttl 0, i.e. no expiration. -/
theorem c8_get_by_id (s : AppState) (id : Nat) :
    (cacheGet s.cache ("book:" ++ toString id) = none →
      dbFirst s.store id = none →
        BookController.GetBookByID s id = (.notFound "Book not found", s) ∧
        Part000.GetBookByID s id = (.notFound "Book not found", s) ∧
        (Resp.notFound "Book not found").status = 404 ∧
        (Resp.notFound "Book not found").errorField = some "Book not found") ∧
    (∀ b, cacheGet s.cache ("book:" ++ toString id) = none →
      dbFirst s.store id = some b →
        (BookController.GetBookByID s id).1 = .okBook b ∧
        (BookController.GetBookByID s id).1.status = 200 ∧
        (⟨"book:" ++ toString id, .book b, 0⟩ : CacheEntry)
          ∈ (BookController.GetBookByID s id).2.cache ∧
        (Part000.GetBookByID s id).1 = .okBook b ∧
        (⟨"book:" ++ toString id, .book b, 0⟩ : CacheEntry)
          ∈ (Part000.GetBookByID s id).2.cache) := by
  constructor
  · intro hm ha
    unfold BookController.GetBookByID Part000.GetBookByID
    refine ⟨?_, ?_, rfl, rfl⟩ <;> simp [hm, ha]
  · intro b hm hb
    unfold BookController.GetBookByID Part000.GetBookByID
    refine ⟨?_, ?_, ?_, ?_, ?_⟩ <;> simp [hm, hb, cacheSet, Resp.status]

/-- C8 witness: id 5 is uncached and absent, id 1 uncached but stored; the
concrete responses and the ttl-0 cache write follow from the theorem. -/
theorem c8_witness :
    (cacheGet c7State.cache ("book:" ++ toString (5 : Nat)) = none ∧
     dbFirst c7State.store 5 = none ∧
     BookController.GetBookByID c7State 5 = (.notFound "Book not found", c7State)) ∧
    (cacheGet c7State.cache ("book:" ++ toString (1 : Nat)) = none ∧
     dbFirst c7State.store 1 = some c1Old ∧
     (BookController.GetBookByID c7State 1).1 = .okBook c1Old ∧
     (⟨"book:" ++ toString (1 : Nat), .book c1Old, 0⟩ : CacheEntry)
       ∈ (BookController.GetBookByID c7State 1).2.cache) :=
  ⟨⟨rfl, rfl, ((c8_get_by_id c7State 5).1 rfl rfl).1⟩,
   ⟨rfl, rfl, ((c8_get_by_id c7State 1).2 c1Old rfl rfl).1,
    ((c8_get_by_id c7State 1).2 c1Old rfl rfl).2.2.1⟩⟩

/-- bookController.go update: any Bad-Request outcome leaves the state as it
was (all three validation branches and the malformed-body branch return before
`Save`, the cache deletes and the publish). -/
theorem bc_update_badRequest_state (s : AppState) (id : Nat) (body : Body)
    (e : String) (he : (BookController.UpdateBook s id body).1 = .badRequest e) :
    (BookController.UpdateBook s id body).2 = s := by
  unfold BookController.UpdateBook at he ⊢
  cases h0 : dbFirst s.store id with
  | none => simp [h0] at he
  | some book =>
    cases body with
    | malformed => simp [h0]
    | json p =>
      by_cases ht : (bindJSON p zeroBook).title = ""
      · simp [h0, ht]
      by_cases ha : (bindJSON p zeroBook).author = ""
      · simp [h0, ht, ha]
      by_cases hy : (bindJSON p zeroBook).year ≤ 0
      · simp [h0, ht, ha, hy]
      · rw [h0] at he; simp [ht, ha, hy] at he

/-- part_000 update: any Bad-Request outcome leaves the state unchanged. -/
theorem p0_update_badRequest_state (s : AppState) (id : Nat) (body : Body)
    (e : String) (he : (Part000.UpdateBook s id body).1 = .badRequest e) :
    (Part000.UpdateBook s id body).2 = s := by
  unfold Part000.UpdateBook at he ⊢
  cases h0 : dbFirst s.store id with
  | none => simp [h0] at he
  | some book0 =>
    cases body with
    | malformed => simp [h0]
    | json p =>
      by_cases ht : (bindJSON p book0).title = ""
      · simp [h0, ht]
      by_cases ha : (bindJSON p book0).author = ""
      · simp [h0, ht, ha]
      by_cases hy : (bindJSON p book0).year ≤ 0
      · simp [h0, ht, ha, hy]
      · rw [h0] at he; simp [ht, ha, hy] at he

/-- C9: for update, the existence check runs first — an absent path id yields
Not-Found for every body, malformed included; only with a loaded record is the
body deserialized, malformed input drawing Bad-Request; and every Bad-Request
outcome leaves the state (store, cache, events) unchanged.  Both variants. -/
theorem c9_update_error_order (s : AppState) (id : Nat) (body : Body) :
    (dbFirst s.store id = none →
      BookController.UpdateBook s id body = (.notFound "Book not found", s) ∧
      Part000.UpdateBook s id body = (.notFound "Book not found", s)) ∧
    (∀ book0, dbFirst s.store id = some book0 →
      BookController.UpdateBook s id .malformed = (.badRequest "Invalid JSON data", s) ∧
      Part000.UpdateBook s id .malformed = (.badRequest "Invalid JSON data", s)) ∧
    (∀ e, (BookController.UpdateBook s id body).1 = .badRequest e →
      (BookController.UpdateBook s id body).2 = s) ∧
    (∀ e, (Part000.UpdateBook s id body).1 = .badRequest e →
      (Part000.UpdateBook s id body).2 = s) := by
  refine ⟨fun h0 => ?_, fun book0 h0 => ?_,
    fun e he => bc_update_badRequest_state s id body e he,
    fun e he => p0_update_badRequest_state s id body e he⟩
  · refine ⟨?_, ?_⟩
    · unfold BookController.UpdateBook; simp [h0]
    · unfold Part000.UpdateBook; simp [h0]
  · refine ⟨?_, ?_⟩
    · unfold BookController.UpdateBook; simp [h0]
    · unfold Part000.UpdateBook; simp [h0]

/-- C9 witness: id 9 is absent, so even a malformed body draws Not-Found with
the state untouched; id 1 is present, so a malformed body draws Bad-Request,
and that Bad-Request left the state untouched. -/
theorem c9_witness :
    dbFirst c5State.store 9 = none ∧
    BookController.UpdateBook c5State 9 .malformed
      = (.notFound "Book not found", c5State) ∧
    dbFirst c5State.store 1 = some ⟨1, "t1", "a1", 2001⟩ ∧
    Part000.UpdateBook c5State 1 .malformed
      = (.badRequest "Invalid JSON data", c5State) ∧
    (Part000.UpdateBook c5State 1 .malformed).2 = c5State :=
  ⟨rfl,
   ((c9_update_error_order c5State 9 .malformed).1 rfl).1,
   rfl,
   ((c9_update_error_order c5State 1 .malformed).2.1 ⟨1, "t1", "a1", 2001⟩ rfl).2,
   (c9_update_error_order c5State 1 .malformed).2.2.2 "Invalid JSON data"
     (congrArg Prod.fst
       ((c9_update_error_order c5State 1 .malformed).2.1 ⟨1, "t1", "a1", 2001⟩ rfl).2)⟩

/-- If some stored row carries `b`'s id, the save's update image contains
`b`. -/
theorem mem_map_update_self (st : List Book) (b y : Book)
    (hy : y ∈ st) (hid : y.id = b.id) :
    b ∈ st.map (fun x => if x.id == b.id then b else x) :=
  List.mem_map.2 ⟨y, hy, by simp [hid]⟩

/-- Lemma: `dbSave` never changes the data fields of the record it hands
back — only the id can be filled in by the blank-key create. -/
theorem dbSave_fields (s : AppState) (b : Book) :
    (dbSave s b).2.title = b.title ∧ (dbSave s b).2.author = b.author ∧
    (dbSave s b).2.year = b.year := by
  unfold dbSave
  by_cases hex : (s.store.any (fun x => x.id == b.id)) = true
  · simp [hex]
  · by_cases h0 : (b.id == 0) = true
    · simp [hex, h0]
    · simp [hex, h0]

/-- Any 200 answer of part_000's update carries exactly the record `Save`
left in the Go variable. -/
theorem p0_update_okBook_inv (s : AppState) (id : Nat) (book0 : Book)
    (p : BookJSON) (b2 : Book) (h0 : dbFirst s.store id = some book0)
    (he : (Part000.UpdateBook s id (.json p)).1 = .okBook b2) :
    b2 = (dbSave s (bindJSON p book0)).2 := by
  unfold Part000.UpdateBook at he
  by_cases ht : (bindJSON p book0).title = ""
  · simp [h0, ht] at he
  by_cases ha : (bindJSON p book0).author = ""
  · simp [h0, ht, ha] at he
  by_cases hy : (bindJSON p book0).year ≤ 0
  · simp [h0, ht, ha, hy] at he
  · simp [h0, ht, ha, hy] at he
    exact he.symm

/-- part_000 update on a loaded record whose merged form passes validation
and whose merged id names a stored row: the merged record is returned and
`Save` rewrites exactly that row. -/
theorem p0_update_ok (s : AppState) (id : Nat) (book0 : Book) (p : BookJSON)
    (h0 : dbFirst s.store id = some book0)
    (hex : s.store.any (fun x => x.id == (bindJSON p book0).id) = true)
    (ht : (bindJSON p book0).title ≠ "") (ha : (bindJSON p book0).author ≠ "")
    (hy : 0 < (bindJSON p book0).year) :
    (Part000.UpdateBook s id (.json p)).1 = .okBook (bindJSON p book0) ∧
    (Part000.UpdateBook s id (.json p)).2.store
      = s.store.map
          (fun x => if x.id == (bindJSON p book0).id then bindJSON p book0 else x) := by
  have hy' : ¬((bindJSON p book0).year ≤ 0) := by omega
  unfold Part000.UpdateBook
  constructor <;> simp [h0, ht, ha, hy', dbSave, hex]

/-- C10: in part_000's direct-bind update, fields omitted from the body keep
the loaded record's values — with valid title/author supplied and the year
omitted, the stored (positive) year passes the check and the 200 answer
carries it (and the supplied title/author) whatever the body id is; with the
id also omitted the full merged record is returned and persisted over the
loaded row.  In bookController.go's separate-payload update an omitted field
binds to its zero value, so the same body is rejected with the Bad-Request
year message, and any body behaves exactly as if its omitted fields were the
zero values. -/
theorem c10_omitted_fields (s : AppState) (id : Nat) (book0 : Book) (p : BookJSON)
    (h0 : dbFirst s.store id = some book0) :
    (p.year = none → (bindJSON p book0).year = book0.year) ∧
    (∀ t a, p.id = none → p.year = none → p.title = some t → t ≠ "" →
      p.author = some a → a ≠ "" → 0 < book0.year →
      (Part000.UpdateBook s id (.json p)).1 = .okBook (bindJSON p book0) ∧
      (bindJSON p book0).year = book0.year ∧
      bindJSON p book0 ∈ (Part000.UpdateBook s id (.json p)).2.store) ∧
    (∀ t a b2, p.year = none → p.title = some t → p.author = some a →
      (Part000.UpdateBook s id (.json p)).1 = .okBook b2 →
      b2.title = t ∧ b2.author = a ∧ b2.year = book0.year) ∧
    (BookController.UpdateBook s id (.json p)
      = BookController.UpdateBook s id
          (.json ⟨some (p.id.getD 0), some (p.title.getD ""),
                  some (p.author.getD ""), some (p.year.getD 0)⟩)) ∧
    (∀ t a, p.year = none → p.title = some t → t ≠ "" → p.author = some a →
      a ≠ "" →
      (BookController.UpdateBook s id (.json p)).1
        = .badRequest "Year must be a valid positive number") := by
  refine ⟨fun hpy => by simp [bindJSON, hpy],
    fun t a hpid hpy hpt ht hpa ha hb0 => ?_,
    fun t a b2 hpy hpt hpa he => ?_,
    ?_, fun t a hpy hpt ht hpa ha => ?_⟩
  · have ht' : (bindJSON p book0).title ≠ "" := by simp [bindJSON, hpt, ht]
    have ha' : (bindJSON p book0).author ≠ "" := by simp [bindJSON, hpa, ha]
    have hy' : 0 < (bindJSON p book0).year := by simp [bindJSON, hpy]; omega
    have hex : s.store.any (fun x => x.id == (bindJSON p book0).id) = true :=
      List.any_eq_true.2 ⟨book0, (dbFirst_mem _ _ _ h0).1, by simp [bindJSON, hpid]⟩
    obtain ⟨hresp, hstore⟩ := p0_update_ok s id book0 p h0 hex ht' ha' hy'
    refine ⟨hresp, by simp [bindJSON, hpy], ?_⟩
    rw [hstore]
    exact mem_map_update_self s.store (bindJSON p book0) book0 (dbFirst_mem _ _ _ h0).1
      (by simp [bindJSON, hpid])
  · have hb := p0_update_okBook_inv s id book0 p b2 h0 he
    have hf := dbSave_fields s (bindJSON p book0)
    subst hb
    refine ⟨?_, ?_, ?_⟩
    · rw [hf.1]; simp [bindJSON, hpt]
    · rw [hf.2.1]; simp [bindJSON, hpa]
    · rw [hf.2.2]; simp [bindJSON, hpy]
  · have hb : bindJSON p zeroBook
        = bindJSON ⟨some (p.id.getD 0), some (p.title.getD ""),
            some (p.author.getD ""), some (p.year.getD 0)⟩ zeroBook := by
      simp [bindJSON, zeroBook]
    simp only [BookController.UpdateBook]
    rw [hb]
  · have ht' : (bindJSON p zeroBook).title ≠ "" := by simp [bindJSON, hpt, ht]
    have ha' : (bindJSON p zeroBook).author ≠ "" := by simp [bindJSON, hpa, ha]
    have hy' : (bindJSON p zeroBook).year ≤ 0 := by simp [bindJSON, hpy, zeroBook]
    exact (bc_update_validation s id book0 p h0).2.2 ht' ha' hy'

/-- C10 witness: `PUT /books/1` with body supplying only title "Q" and author
"R": part_000 answers 200 with the stored year 2001 preserved and persists it;
bookController.go rejects the same body with the year message. -/
theorem c10_witness :
    dbFirst c5State.store 1 = some ⟨1, "t1", "a1", 2001⟩ ∧
    ((Part000.UpdateBook c5State 1 (.json ⟨none, some "Q", some "R", none⟩)).1
        = .okBook (bindJSON ⟨none, some "Q", some "R", none⟩ ⟨1, "t1", "a1", 2001⟩) ∧
      (bindJSON ⟨none, some "Q", some "R", none⟩ ⟨1, "t1", "a1", 2001⟩).year = 2001 ∧
      bindJSON ⟨none, some "Q", some "R", none⟩ ⟨1, "t1", "a1", 2001⟩
        ∈ (Part000.UpdateBook c5State 1
            (.json ⟨none, some "Q", some "R", none⟩)).2.store) ∧
    (BookController.UpdateBook c5State 1 (.json ⟨none, some "Q", some "R", none⟩)).1
      = .badRequest "Year must be a valid positive number" := by
  have h := c10_omitted_fields c5State 1 ⟨1, "t1", "a1", 2001⟩
    ⟨none, some "Q", some "R", none⟩ rfl
  obtain ⟨h1, h2, h3, h4, h5⟩ := h
  obtain ⟨ha, hb, hc⟩ :=
    h2 "Q" "R" rfl rfl rfl (by decide) rfl (by decide) (by decide)
  exact ⟨rfl, ⟨ha, hb, hc⟩, h5 "Q" "R" rfl rfl (by decide) rfl (by decide)⟩
